import Mathlib

/-!
# Verification of the `vol` volume-control CLI

Shallow embedding of `src/main.rs`, a macOS CLI that parses a percentage
argument, resolves the default output device and writes volume and mute
properties through Core Audio.

Floating-point values (`f32`) are modelled exactly: a parsed number is a
rational together with the non-finite values `+inf`, `-inf` and `NaN`
that Rust's float parser can produce.  The OS audio layer is modelled as
an oracle assigning status codes to each call; calls are recorded in an
event trace so that "which writes happened" is provable.
-/

namespace Vol

/-- Model of an `f32` value as produced by Rust's `str::parse::<f32>`:
a finite rational (rounding abstracted away) or a non-finite value. -/
inductive FVal where
  | finite (q : ℚ)
  | posInf
  | negInf
  | nan
deriving DecidableEq, Repr

/-- The error enum `VolumeError` of `main.rs`. -/
inductive VolumeError where
  | InvalidInput (msg : String)
  | DeviceError (code : Int)
  | SetError (code : Int)
deriving DecidableEq, Repr

/-- The `Display` impl for `VolumeError` in `main.rs`. -/
def VolumeError.display : VolumeError → String
  | .InvalidInput msg => msg
  | .DeviceError code => "Failed to get audio device: " ++ toString code
  | .SetError code => "Failed to set volume: " ++ toString code

/-! ## Rust float parsing (`input.parse::<f32>()`) -/

/-- ASCII decimal digit test. -/
def isDigit (c : Char) : Bool := '0' ≤ c && c ≤ '9'

/-- Numeric value of a decimal digit character. -/
def digVal (c : Char) : ℕ := c.toNat - '0'.toNat

/-- Value of a digit string, most significant first. -/
def natOfDigits (cs : List Char) : ℕ :=
  cs.foldl (fun a c => a * 10 + digVal c) 0

/-- Strip an optional leading sign; `true` means negative. -/
def stripSign : List Char → Bool × List Char
  | '-' :: rest => (true, rest)
  | '+' :: rest => (false, rest)
  | cs => (false, cs)

/-- Parse the mantissa part `Digit+ | Digit+ '.' Digit* | '.' Digit+`
of Rust's float grammar, as an exact rational. -/
def parseMant (cs : List Char) : Option ℚ :=
  let (ip, rest) := cs.span isDigit
  match rest with
  | [] => if ip.isEmpty then none else some (natOfDigits ip)
  | '.' :: fp =>
      if fp.all isDigit && !(ip.isEmpty && fp.isEmpty) then
        some ((natOfDigits ip : ℚ) + (natOfDigits fp : ℚ) / (10 : ℚ) ^ fp.length)
      else none
  | _ => none

/-- Parse the exponent part `Sign? Digit+` of Rust's float grammar. -/
def parseExp (cs : List Char) : Option ℤ :=
  let (neg, ds) := stripSign cs
  if !ds.isEmpty && ds.all isDigit then
    some (if neg then -(natOfDigits ds : ℤ) else (natOfDigits ds : ℤ))
  else none

/-- Parse an unsigned decimal number `Mantissa (('e'|'E') Exponent)?`. -/
def parseDec (cs : List Char) : Option ℚ :=
  let (m, rest) := cs.span (fun c => c ≠ 'e' && c ≠ 'E')
  match rest with
  | [] => parseMant m
  | _ :: ex => do
      let q ← parseMant m
      let e ← parseExp ex
      some (q * (10 : ℚ) ^ e)

/-- Model of Rust's `str::parse::<f32>`: optional sign, then a
case-insensitive `inf`/`infinity`/`nan` keyword or a decimal number. -/
def rustParseFloat (s : String) : Option FVal :=
  let (neg, cs) := stripSign s.toList
  let low := cs.map Char.toLower
  if low = "inf".toList || low = "infinity".toList then
    some (if neg then .negInf else .posInf)
  else if low = "nan".toList then
    some .nan
  else
    match parseDec cs with
    | some q => some (.finite (if neg then -q else q))
    | none => none

/-- The range test `(0.0..=100.0).contains(&percent)`.  Comparisons
with `NaN` are false, and the infinities lie outside the interval. -/
def inRange : FVal → Bool
  | .finite q => decide (0 ≤ q ∧ q ≤ 100)
  | _ => false

/-- Division by `100.0`; non-finite values are preserved (they never
reach this point in `parse_volume`, but the model is total). -/
def fdiv100 : FVal → FVal
  | .finite q => .finite (q / 100)
  | v => v

/-- The function `parse_volume` from `main.rs`: parse the string as a float, check
membership in `0.0..=100.0`, return the value divided by `100.0`. -/
def parse_volume (input : String) : Except VolumeError FVal :=
  match rustParseFloat input with
  | none => .error (.InvalidInput "Invalid number")
  | some percent =>
      if inRange percent then .ok (fdiv100 percent)
      else .error (.InvalidInput "Volume must be 0-100")

/-! ## OS audio layer, modelled as an oracle plus an event trace -/

/-- The `f32` operator `==` (used by `volume == 0.0` in `set_volume`):
`NaN` compares unequal to everything, including itself. -/
def fbeq : FVal → FVal → Bool
  | .finite a, .finite b => a == b
  | .posInf, .posInf => true
  | .negInf, .negInf => true
  | _, _ => false

/-- One Core Audio call made by the program. -/
inductive Event where
  | getDevice
  | writeVolume (device : ℕ) (value : FVal)
  | writeMute (device : ℕ) (value : Bool)
deriving DecidableEq, Repr

/-- Oracle for the OS audio subsystem: the status code (`OSStatus`,
an `i32`) returned by each call, and the device id produced by a
successful default-device query. -/
structure OS where
  getDeviceStatus : ℤ
  deviceId : ℕ
  volumeWriteStatus : ℕ → FVal → ℤ
  muteWriteStatus : ℕ → Bool → ℤ

/-- The function `get_default_device` from `main.rs`: one `AudioObjectGetPropertyData`
call; non-zero status becomes `DeviceError status`, zero status yields
the device id the OS wrote. -/
def get_default_device (os : OS) : Except VolumeError ℕ × List Event :=
  let status := os.getDeviceStatus
  (if status ≠ 0 then .error (.DeviceError status) else .ok os.deviceId,
   [.getDevice])

/-- The function `set_mute` from `main.rs`: one `AudioObjectSetPropertyData` call on
the mute property; non-zero status becomes `SetError status`. -/
def set_mute (os : OS) (device_id : ℕ) (muted : Bool) :
    Except VolumeError Unit × List Event :=
  let status := os.muteWriteStatus device_id muted
  (if status ≠ 0 then .error (.SetError status) else .ok (),
   [.writeMute device_id muted])

/-- The function `set_volume` from `main.rs`: write the volume scalar; on non-zero
status return `SetError` at once (no mute call).  Otherwise call
`set_mute` with `volume == 0.0` and propagate its result (`?`). -/
def set_volume (os : OS) (device_id : ℕ) (volume : FVal) :
    Except VolumeError Unit × List Event :=
  let status := os.volumeWriteStatus device_id volume
  if status ≠ 0 then
    (.error (.SetError status), [.writeVolume device_id volume])
  else
    let r := set_mute os device_id (fbeq volume (.finite 0))
    (r.1, .writeVolume device_id volume :: r.2)

/-- Observable outcome of one program run: exit code, lines printed to
standard error, and the trace of OS calls. -/
structure RunResult where
  exitCode : ℕ
  stderr : List String
  trace : List Event
deriving DecidableEq, Repr

/-- The function `main` from `main.rs`.  `argv` is the full argument vector as seen
by `std::env::args()` (element 0 is the program name); `args().nth(1)`
is `argv.get? 1`.  Missing argument: silent exit 0.  Each error path
prints the error's `Display` form and exits 1. -/
def mainRun (os : OS) (argv : List String) : RunResult :=
  match argv.get? 1 with
  | none => ⟨0, [], []⟩
  | some input =>
    match parse_volume input with
    | .error e => ⟨1, [e.display], []⟩
    | .ok volume =>
      let d := get_default_device os
      match d.1 with
      | .error e => ⟨1, [e.display], d.2⟩
      | .ok device_id =>
        let s := set_volume os device_id volume
        match s.1 with
        | .error e => ⟨1, [e.display], d.2 ++ s.2⟩
        | .ok _ => ⟨0, [], d.2 ++ s.2⟩

/-! ## Helper lemmas -/

deriving instance DecidableEq for Except

/-- Sample oracle: every OS call succeeds, device id 42. -/
def osAllOk : OS := ⟨0, 42, fun _ _ => 0, fun _ _ => 0⟩

/-- Sample oracle: the default-device query fails with code `-1`. -/
def osDevFail : OS := ⟨-1, 0, fun _ _ => 0, fun _ _ => 0⟩

/-- Sample oracle: the volume write fails with code `-50`. -/
def osVolFail : OS := ⟨0, 42, fun _ _ => -50, fun _ _ => 0⟩

/-- Sample oracle: the mute write fails with code `-7`. -/
def osMuteFail : OS := ⟨0, 42, fun _ _ => 0, fun _ _ => -7⟩

/-- Any `Ok` value of `parse_volume` is a finite fraction in `[0, 1]`:
the range check admits only finite values in `[0, 100]`, and the result
is that value divided by `100`. -/
theorem parse_volume_ok_bounds (s : String) (v : FVal)
    (h : parse_volume s = .ok v) : ∃ q : ℚ, v = .finite q ∧ 0 ≤ q ∧ q ≤ 1 := by
  unfold parse_volume at h
  cases hp : rustParseFloat s with
  | none => rw [hp] at h; exact absurd h (by simp)
  | some p =>
    rw [hp] at h
    cases p with
    | finite q =>
      simp only [inRange, fdiv100, decide_eq_true_eq] at h
      split at h
      · rename_i hr
        refine ⟨q / 100, ?_, div_nonneg hr.1 (by norm_num),
          (div_le_one (by norm_num)).2 hr.2⟩
        simpa using h.symm
      · exact absurd h (by simp)
    | posInf => simp [inRange] at h
    | negInf => simp [inRange] at h
    | nan => simp [inRange] at h

/-! ## Claims -/

set_option maxRecDepth 100000 in
/-- C2: for every integer percentage `p` in `[0, 100]`, `parse_volume`
applied to the decimal string form of `p` returns `Ok (p / 100)` as an
exact fraction; in particular `"0" ↦ 0`, `"50" ↦ 1/2`, `"100" ↦ 1`. -/
theorem parse_volume_integer_percentages (p : ℕ) (h : p ≤ 100) :
    parse_volume (Nat.repr p) = .ok (.finite ((p : ℚ) / 100)) := by
  have key : ∀ q ∈ Finset.range 101,
      parse_volume (Nat.repr q) = .ok (.finite ((q : ℚ) / 100)) :=
    of_decide_eq_true (by with_unfolding_all rfl)
  exact key p (Finset.mem_range.2 (Nat.lt_succ_of_le h))

/-- Witness for C2 at `p = 50`. -/
theorem parse_volume_integer_percentages_witness :
    parse_volume (Nat.repr 50) = .ok (.finite ((50 : ℚ) / 100)) :=
  parse_volume_integer_percentages 50 (by decide)

/-- C3: `parse_volume` is total and returns an `InvalidInput` error
exactly when the string fails to parse as a number or parses to a value
failing the `[0, 100]` containment check; in the out-of-range case the
message is `"Volume must be 0-100"`, in the no-parse case it is
`"Invalid number"`. -/
theorem parse_volume_invalid_input_iff (s : String) :
    ((∃ msg, parse_volume s = .error (.InvalidInput msg)) ↔
      rustParseFloat s = none ∨
        ∃ v, rustParseFloat s = some v ∧ inRange v = false) ∧
    (∀ v, rustParseFloat s = some v → inRange v = false →
      parse_volume s = .error (.InvalidInput "Volume must be 0-100")) ∧
    (rustParseFloat s = none →
      parse_volume s = .error (.InvalidInput "Invalid number")) := by
  unfold parse_volume
  cases hp : rustParseFloat s with
  | none => simp
  | some p =>
    by_cases hr : inRange p = true
    · simp [hr]
    · rw [Bool.not_eq_true] at hr
      simp [hr]

/-- Witness for C3: `"150"` parses to the out-of-range value `150` and
is rejected with the message `"Volume must be 0-100"`. -/
theorem parse_volume_invalid_input_iff_witness :
    parse_volume "150" = .error (.InvalidInput "Volume must be 0-100") :=
  (parse_volume_invalid_input_iff "150").2.1 (.finite 150)
    (of_decide_eq_true (by with_unfolding_all rfl))
    (of_decide_eq_true (by with_unfolding_all rfl))

/-- C10: the non-finite strings `"NaN"`, `"inf"`, `"infinity"` parse as
floats but are rejected by the range check, so `parse_volume` never
returns a non-finite value on the `Ok` path; while the in-range
non-integer string `"12.5"` is accepted with value `0.125`. -/
theorem parse_volume_nonfinite_and_decimals :
    parse_volume "NaN" = .error (.InvalidInput "Volume must be 0-100") ∧
    parse_volume "inf" = .error (.InvalidInput "Volume must be 0-100") ∧
    parse_volume "infinity" = .error (.InvalidInput "Volume must be 0-100") ∧
    rustParseFloat "NaN" = some .nan ∧
    rustParseFloat "inf" = some .posInf ∧
    rustParseFloat "infinity" = some .posInf ∧
    (∀ s v, parse_volume s = .ok v → ∃ q : ℚ, v = .finite q) ∧
    parse_volume "12.5" = .ok (.finite (12.5 / 100)) := by
  refine ⟨of_decide_eq_true (by with_unfolding_all rfl),
    of_decide_eq_true (by with_unfolding_all rfl),
    of_decide_eq_true (by with_unfolding_all rfl),
    of_decide_eq_true (by with_unfolding_all rfl),
    of_decide_eq_true (by with_unfolding_all rfl),
    of_decide_eq_true (by with_unfolding_all rfl),
    fun s v h => (parse_volume_ok_bounds s v h).imp fun q hq => hq.1,
    of_decide_eq_true (by with_unfolding_all rfl)⟩

/-- C1: when the volume write succeeds, `set_volume` issues exactly one
mute write, to the same device, with value `true` iff the fraction is
`0.0`; and when that mute write fails, its `SetError` is the overall
result even though the volume write already happened (it is still in
the trace). -/
theorem set_volume_mute_composition (os : OS) (d : ℕ) (f : FVal)
    (h : os.volumeWriteStatus d f = 0) :
    (set_volume os d f).2 =
      [.writeVolume d f, .writeMute d (fbeq f (.finite 0))] ∧
    (fbeq f (.finite 0) = true ↔ f = .finite 0) ∧
    (os.muteWriteStatus d (fbeq f (.finite 0)) ≠ 0 →
      (set_volume os d f).1 =
        .error (.SetError (os.muteWriteStatus d (fbeq f (.finite 0))))) := by
  refine ⟨by simp [set_volume, set_mute, h], ?_, ?_⟩
  · cases f with
    | finite q => simp [fbeq]
    | posInf => simp [fbeq]
    | negInf => simp [fbeq]
    | nan => simp [fbeq]
  · intro hm
    simp [set_volume, set_mute, h, hm]

/-- Witness for C1: volume write succeeds, mute write fails with `-7`;
the mute write is recorded and its error is the overall result. -/
theorem set_volume_mute_composition_witness :
    (set_volume osMuteFail 42 (FVal.finite 0)).2 =
      [Event.writeVolume 42 (FVal.finite 0),
       Event.writeMute 42 (fbeq (FVal.finite 0) (FVal.finite 0))] ∧
    (set_volume osMuteFail 42 (FVal.finite 0)).1 =
      .error (.SetError (-7)) :=
  have h := set_volume_mute_composition osMuteFail 42 (FVal.finite 0) rfl
  ⟨h.1, h.2.2 (by decide)⟩

/-- C4: every `Ok` result of `parse_volume` is a finite fraction in
`[0, 1]`, and hence every volume value in a `mainRun` trace's volume
write is a finite fraction in `[0, 1]`. -/
theorem parse_volume_fraction_in_range :
    (∀ s v, parse_volume s = .ok v →
      ∃ q : ℚ, v = .finite q ∧ 0 ≤ q ∧ q ≤ 1) ∧
    (∀ os argv d f, Event.writeVolume d f ∈ (mainRun os argv).trace →
      ∃ q : ℚ, f = .finite q ∧ 0 ≤ q ∧ q ≤ 1) := by
  refine ⟨parse_volume_ok_bounds, ?_⟩
  intro os argv d f hmem
  unfold mainRun at hmem
  split at hmem
  · simp at hmem
  · rename_i input hin
    split at hmem
    · simp at hmem
    · rename_i volume hpv
      by_cases hg : os.getDeviceStatus = 0
      · by_cases hv : os.volumeWriteStatus os.deviceId volume = 0
        · by_cases hm : os.muteWriteStatus os.deviceId
              (fbeq volume (.finite 0)) = 0
          · simp [get_default_device, set_volume, set_mute, hg, hv, hm]
              at hmem
            obtain ⟨_, rfl⟩ := hmem
            exact parse_volume_ok_bounds input _ hpv
          · simp [get_default_device, set_volume, set_mute, hg, hv, hm]
              at hmem
            obtain ⟨_, rfl⟩ := hmem
            exact parse_volume_ok_bounds input _ hpv
        · simp [get_default_device, set_volume, hg, hv] at hmem
          obtain ⟨_, rfl⟩ := hmem
          exact parse_volume_ok_bounds input _ hpv
      · simp [get_default_device, hg] at hmem

/-- Witness for C4: the fraction parsed from `"50"` is in `[0, 1]`. -/
theorem parse_volume_fraction_in_range_witness :
    ∃ q : ℚ, FVal.finite (1 / 2) = FVal.finite q ∧ 0 ≤ q ∧ q ≤ 1 :=
  parse_volume_fraction_in_range.1 "50" (.finite (1 / 2))
    (of_decide_eq_true (by with_unfolding_all rfl))

/-- C5: when the volume write returns a non-zero status, `set_volume`
returns `SetError` with that raw status and no mute write occurs. -/
theorem set_volume_write_failure_no_mute (os : OS) (d : ℕ) (f : FVal)
    (h : os.volumeWriteStatus d f ≠ 0) :
    (set_volume os d f).1 = .error (.SetError (os.volumeWriteStatus d f)) ∧
    (set_volume os d f).2 = [.writeVolume d f] ∧
    ∀ dev b, Event.writeMute dev b ∉ (set_volume os d f).2 := by
  refine ⟨?_, ?_, ?_⟩ <;> simp [set_volume, h]

/-- Witness for C5: a volume write failing with `-50` yields
`SetError (-50)` and a trace with no mute write. -/
theorem set_volume_write_failure_no_mute_witness :
    (set_volume osVolFail 42 (FVal.finite (3 / 10))).1 =
      .error (.SetError (-50)) ∧
    (set_volume osVolFail 42 (FVal.finite (3 / 10))).2 =
      [Event.writeVolume 42 (FVal.finite (3 / 10))] ∧
    ∀ dev b, Event.writeMute dev b ∉
      (set_volume osVolFail 42 (FVal.finite (3 / 10))).2 :=
  set_volume_write_failure_no_mute osVolFail 42 (FVal.finite (3 / 10))
    (by decide)

/-- C6: with no command-line argument (at most the program name in the
argument vector), the run exits 0, prints nothing and makes no OS
call. -/
theorem main_no_args_noop (os : OS) (argv : List String)
    (h : argv.length ≤ 1) : mainRun os argv = ⟨0, [], []⟩ := by
  match argv with
  | [] => rfl
  | [a] => rfl
  | a :: b :: t => simp at h

/-- Witness for C6 with the bare program name. -/
theorem main_no_args_noop_witness :
    mainRun osAllOk ["vol"] = ⟨0, [], []⟩ :=
  main_no_args_noop osAllOk ["vol"] (by decide)

/-- C7: when the argument fails validation, the run exits 1, prints
exactly the error's message, and makes no OS call at all. -/
theorem main_invalid_arg_no_os_calls (os : OS) (prog input : String)
    (rest : List String) (e : VolumeError)
    (h : parse_volume input = .error e) :
    mainRun os (prog :: input :: rest) = ⟨1, [e.display], []⟩ := by
  simp [mainRun, h]

/-- Witness for C7 at input `"abc"`. -/
theorem main_invalid_arg_no_os_calls_witness :
    mainRun osAllOk ["vol", "abc"] =
      ⟨1, [(VolumeError.InvalidInput "Invalid number").display], []⟩ :=
  main_invalid_arg_no_os_calls osAllOk "vol" "abc" []
    (.InvalidInput "Invalid number") (by decide)

/-- C8: `get_default_device` makes exactly one OS query; it returns the
device id iff the status is zero, and a non-zero status becomes
`DeviceError` with that raw code, whose message (containing the code
verbatim) is printed by `mainRun` before exiting 1. -/
theorem get_default_device_spec (os : OS) :
    (get_default_device os).2 = [.getDevice] ∧
    ((get_default_device os).1 = .ok os.deviceId ↔ os.getDeviceStatus = 0) ∧
    (os.getDeviceStatus ≠ 0 →
      (get_default_device os).1 = .error (.DeviceError os.getDeviceStatus) ∧
      ∀ prog input rest volume, parse_volume input = .ok volume →
        mainRun os (prog :: input :: rest) =
          ⟨1, ["Failed to get audio device: " ++ toString os.getDeviceStatus],
           [.getDevice]⟩) := by
  refine ⟨rfl, ?_, ?_⟩
  · by_cases hg : os.getDeviceStatus = 0
    · simp [get_default_device, hg]
    · simp [get_default_device, hg]
  · intro hg
    refine ⟨by simp [get_default_device, hg], ?_⟩
    intro prog input rest volume hpv
    simp [mainRun, hpv, get_default_device, hg, VolumeError.display]

/-- Witness for C8: a lookup failing with `-1` on input `"30"`. -/
theorem get_default_device_spec_witness :
    (get_default_device osDevFail).1 = .error (.DeviceError (-1)) ∧
    mainRun osDevFail ["vol", "30"] =
      ⟨1, ["Failed to get audio device: " ++ toString (-1 : ℤ)],
       [Event.getDevice]⟩ :=
  have h := (get_default_device_spec osDevFail).2.2 (by decide)
  ⟨h.1, h.2 "vol" "30" [] (.finite (3 / 10))
    (of_decide_eq_true (by with_unfolding_all rfl))⟩

/-- C9: the run depends only on `argv[1]`: the program name and any
arguments beyond the first are ignored. -/
theorem main_reads_only_first_arg (os : OS) (prog prog' a : String)
    (rest rest' : List String) :
    mainRun os (prog :: a :: rest) = mainRun os (prog' :: a :: rest') := rfl

/-- Witness for C10: the `Ok` value of `"12.5"` is indeed finite. -/
theorem parse_volume_nonfinite_and_decimals_witness :
    ∃ q : ℚ, FVal.finite (12.5 / 100) = FVal.finite q :=
  parse_volume_nonfinite_and_decimals.2.2.2.2.2.2.1 "12.5"
    (.finite (12.5 / 100)) parse_volume_nonfinite_and_decimals.2.2.2.2.2.2.2

end Vol
